import Mathlib

/-!
Verification development for a dialogflow phone-gateway application
(src/app.js).  The application bridges an inbound SIP call to a media
endpoint, drives a turn-by-turn dialog with the Dialogflow agent and
terminates the call when the dialog ends or the caller hangs up.

The core is a per-call session state machine.  The source keeps its state
in two mutable flags on the media endpoint object
(`hangupAfterPlayDone`, `waitingForPlayStart`, src/app.js:95-96,115,117)
together with the pending one-shot `setTimeout` armed at src/app.js:97-99.
We embed that state as a record, each event handler as a pure function
from state to state plus a list of emitted actions (commands and log
lines), and the per-session serialized event loop (spec section 5) as a
`step` function over an event type.  The async `handleAudio` handler is
one atomic step: per the concurrency contract, the decision after the
awaited playback belongs to the same serialized handler invocation.
-/

namespace DialogflowApp

/-- The abstract dialog states of the specification's data model
(section 3).  src/app.js keeps no explicit state variable for this; it is
the spec's abstraction of the session's progress, carried here as ghost
state alongside the concrete flags so that spec-level claims can be
stated.  It never feeds back into any concrete decision below: every
branch in the handlers tests only the concrete flags, exactly as the
source does. -/
inductive DialogState
  | AwaitingTurnStart
  | TurnInProgress
  | AwaitingPlaybackStart
  | Playing
  | Terminating
  | Terminated
deriving Repr, DecidableEq

/-- Parameters of a dialogflow_start command.  The source passes them as
one space-separated argument string (src/app.js:86 and :118). -/
structure StartTurnCmd where
  agent : String
  language : String
  timeoutSecs : Nat
  greeting : Bool
deriving Repr, DecidableEq

/-- The initial turn command hardcoded at src/app.js:86:
endpoint.api with argument string
uuid followed by rising-af044 en-US 20 welcome. -/
def initialTurnCmd : StartTurnCmd :=
  { agent := "rising-af044", language := "en-US", timeoutSecs := 20, greeting := true }

/-- The subsequent-turn command hardcoded at src/app.js:118: same fixed
parameters but no welcome event marker. -/
def nextTurnCmd : StartTurnCmd :=
  { agent := "rising-af044", language := "en-US", timeoutSecs := 20, greeting := false }

/-- Observable actions a session performs: commands to the Dialog Event
Source and Media Channel, call teardown, and log lines. -/
inductive Action
  | startTurn (cmd : StartTurnCmd)
  | play (path : String)
  | destroyDialog
  | destroyEndpoint
  | logIntent
  | logTranscription
  | logEndOfUtterance
  | logError
  | logHangup
deriving Repr, DecidableEq

/-- Per-session state.  The first three fields are the mutable state the
source actually keeps: the two boolean flags written by handleIntent and
handleAudio (src/app.js:95-96,115,117), and the number of pending
one-shot timers armed by setTimeout at src/app.js:97.  `dlgDestroyed` and
`endpointDestroyed` record, at the external interface boundary (spec
section 6), whether the SIP dialog and the media endpoint have been torn
down.  `dialogState` is the spec's ghost abstraction (section 3). -/
structure SessionState where
  hangupAfterPlayDone : Bool
  waitingForPlayStart : Bool
  pendingTimers : Nat
  dlgDestroyed : Bool
  endpointDestroyed : Bool
  dialogState : DialogState
deriving Repr, DecidableEq

/-- State of a freshly created session, before handleInvite starts the
dialog: both flags unset (the source never initializes them; reading an
absent JS property yields a falsy value), no timer pending, call and
endpoint live. -/
def initialState : SessionState :=
  { hangupAfterPlayDone := false
    waitingForPlayStart := false
    pendingTimers := 0
    dlgDestroyed := false
    endpointDestroyed := false
    dialogState := DialogState.AwaitingTurnStart }

/-- Media Channel destruction at the interface boundary (spec sections 4.1
and 6): destroying an already-destroyed channel is a no-op and issues
nothing to the media server; otherwise the channel is released once. -/
def destroyEndpointOp (s : SessionState) : SessionState × List Action :=
  if s.endpointDestroyed then (s, [])
  else ({ s with endpointDestroyed := true }, [Action.destroyEndpoint])

/-- Call termination from the application side: dlg.destroy()
(src/app.js:98 and :117).  Tearing down the call releases the media
endpoint owned by it — the Call Signaling boundary of spec section 6,
with the endpoint release made idempotent by destroyEndpointOp.
Destroying an already-ended call is a no-op. -/
def destroyCall (s : SessionState) : SessionState × List Action :=
  if s.dlgDestroyed then (s, [])
  else
    let s1 := { s with dlgDestroyed := true, dialogState := DialogState.Terminated }
    let r := destroyEndpointOp s1
    (r.1, Action.destroyDialog :: r.2)

/-- src/app.js:92-101, handleIntent.  Logs the intent always; if the
intent carries end_interaction, sets hangupAfterPlayDone and
waitingForPlayStart and arms a one-shot 1-second timer (modelled by
incrementing pendingTimers; the timer body lives in `step` under
Event.timerFire). -/
def handleIntent (endInteraction : Bool) (s : SessionState) : SessionState × List Action :=
  if endInteraction then
    ({ s with hangupAfterPlayDone := true
              waitingForPlayStart := true
              pendingTimers := s.pendingTimers + 1 },
     [Action.logIntent])
  else (s, [Action.logIntent])

/-- src/app.js:105-109, handleTranscription: logs the transcription only
when recognition_result.is_final, and touches nothing. -/
def handleTranscription (isFinal : Bool) (s : SessionState) : SessionState × List Action :=
  if isFinal then (s, [Action.logTranscription]) else (s, [])

/-- src/app.js:113-119, handleAudio.  Clears waitingForPlayStart, plays
the clip (awaited: the session is Playing until the completion signal),
then on completion either destroys the call (hangupAfterPlayDone set) or
issues the next dialogflow_start without the welcome marker. -/
def handleAudio (path : String) (s : SessionState) : SessionState × List Action :=
  let s1 := { s with waitingForPlayStart := false, dialogState := DialogState.Playing }
  if s1.hangupAfterPlayDone then
    let r := destroyCall s1
    (r.1, Action.play path :: r.2)
  else
    ({ s1 with dialogState := DialogState.TurnInProgress },
     [Action.play path, Action.startTurn nextTurnCmd])

/-- src/app.js:123-125, handleEndOfUtterance: log only. -/
def handleEndOfUtterance (s : SessionState) : SessionState × List Action :=
  (s, [Action.logEndOfUtterance])

/-- src/app.js:129-131, handleError: log only; the dialog continues. -/
def handleError (s : SessionState) : SessionState × List Action :=
  (s, [Action.logError])

/-- src/app.js:75-78: the handler bound on the dialog destroy event
(caller sent BYE): log the hangup and destroy the media endpoint. The
call itself is already ending (the BYE ends the SIP dialog). -/
def onCallerHangup (s : SessionState) : SessionState × List Action :=
  let s1 := { s with dlgDestroyed := true, dialogState := DialogState.Terminated }
  let r := destroyEndpointOp s1
  (r.1, Action.logHangup :: r.2)

/-- src/app.js:86: handleInvite kicks the dialog off with
dialogflow_start carrying agent rising-af044, language en-US, 20 second
timeout and the optional welcome event. -/
def start (s : SessionState) : SessionState × List Action :=
  ({ s with dialogState := DialogState.TurnInProgress },
   [Action.startTurn initialTurnCmd])

/-- Events arriving at one session, serialized per the concurrency
contract of spec section 5: the four dialogflow events and the error
event emitted by the endpoint, the firing of an armed fallback timer, and
the caller-hangup notification from the signaling layer. -/
inductive Event
  | intent (endInteraction : Bool)
  | transcription (isFinal : Bool)
  | audioProvided (path : String)
  | endOfUtterance
  | dialogError
  | timerFire
  | callerHangup
deriving Repr, DecidableEq

/-- One serialized step of the session.  Endpoint events dispatch to the
handlers registered at src/app.js:68-72; a destroyed endpoint emits no
further dialogflow events (spec section 5: results arriving after
termination are silently ignored), so they are dropped once the endpoint
is released.  A timer fire is only possible while a timer armed at
src/app.js:97 is pending and runs the body at src/app.js:98: destroy the
call if waitingForPlayStart is still set.  A caller hangup dispatches the
destroy handler of src/app.js:75-78 while the SIP dialog is live; once
the dialog is gone the signaling layer has nothing to deliver it on. -/
def step (s : SessionState) (e : Event) : SessionState × List Action :=
  match e with
  | Event.intent b =>
      if s.endpointDestroyed then (s, []) else handleIntent b s
  | Event.transcription b =>
      if s.endpointDestroyed then (s, []) else handleTranscription b s
  | Event.audioProvided p =>
      if s.endpointDestroyed then (s, []) else handleAudio p s
  | Event.endOfUtterance =>
      if s.endpointDestroyed then (s, []) else handleEndOfUtterance s
  | Event.dialogError =>
      if s.endpointDestroyed then (s, []) else handleError s
  | Event.timerFire =>
      if s.pendingTimers = 0 then (s, [])
      else
        let s1 := { s with pendingTimers := s.pendingTimers - 1 }
        if s1.waitingForPlayStart then destroyCall s1 else (s1, [])
  | Event.callerHangup =>
      if s.dlgDestroyed then (s, []) else onCallerHangup s

/-- Run a list of events through the session, accumulating all emitted
actions in order. -/
def run (s : SessionState) : List Event → SessionState × List Action
  | [] => (s, [])
  | e :: es =>
      let r := step s e
      let t := run r.1 es
      (t.1, r.2 ++ t.2)

/-! ### Helper lemmas (shared) -/

/-- Once the media endpoint has been destroyed, no step revives it. -/
lemma step_preserves_endpointDestroyed (s : SessionState) (e : Event)
    (h : s.endpointDestroyed = true) : (step s e).1.endpointDestroyed = true := by
  cases e <;>
    simp [step, handleIntent, handleTranscription, handleAudio, handleEndOfUtterance,
      handleError, onCallerHangup, destroyCall, destroyEndpointOp, h] <;>
  split_ifs <;> simp_all

/-- A step taken from a state whose endpoint is destroyed emits neither a
startTurn nor a play command. -/
lemma step_no_commands_of_destroyed (s : SessionState) (e : Event)
    (h : s.endpointDestroyed = true) :
    (∀ c, Action.startTurn c ∉ (step s e).2) ∧ (∀ p, Action.play p ∉ (step s e).2) := by
  cases e <;>
    simp [step, handleIntent, handleTranscription, handleAudio, handleEndOfUtterance,
      handleError, onCallerHangup, destroyCall, destroyEndpointOp, h] <;>
  split_ifs <;> simp_all

/-- The hangupAfterPlayDone flag is never written false by any handler. -/
lemma step_preserves_hangupAfterPlayDone (s : SessionState) (e : Event)
    (h : s.hangupAfterPlayDone = true) : (step s e).1.hangupAfterPlayDone = true := by
  cases e <;>
    simp [step, handleIntent, handleTranscription, handleAudio, handleEndOfUtterance,
      handleError, onCallerHangup, destroyCall, destroyEndpointOp, h] <;>
  split_ifs <;> simp_all

/-! ### Claim theorems -/

/-- Claim C1: for every AudioProvided event delivered to a live session,
the handler clears the playback-pending flag and plays the clip; on
playback completion, if hangupAfterPlayDone is set it terminates the call
(destroying the media endpoint, reaching Terminated), otherwise it issues
the next dialog-turn command without the greeting marker and the session
is back in TurnInProgress. -/
theorem audioProvided_spec (s : SessionState) (p : String)
    (h1 : s.endpointDestroyed = false) (h2 : s.dlgDestroyed = false) :
    (step s (Event.audioProvided p)).1.waitingForPlayStart = false ∧
    Action.play p ∈ (step s (Event.audioProvided p)).2 ∧
    (s.hangupAfterPlayDone = true →
      (step s (Event.audioProvided p)).1.dialogState = DialogState.Terminated ∧
      (step s (Event.audioProvided p)).1.endpointDestroyed = true ∧
      Action.destroyEndpoint ∈ (step s (Event.audioProvided p)).2 ∧
      (∀ c, Action.startTurn c ∉ (step s (Event.audioProvided p)).2)) ∧
    (s.hangupAfterPlayDone = false →
      (step s (Event.audioProvided p)).1.dialogState = DialogState.TurnInProgress ∧
      Action.startTurn nextTurnCmd ∈ (step s (Event.audioProvided p)).2 ∧
      nextTurnCmd.greeting = false) := by
  cases hb : s.hangupAfterPlayDone <;>
    simp [step, handleAudio, destroyCall, destroyEndpointOp, h1, h2, hb, nextTurnCmd]

/-- Witness for C1 at a concrete live state. -/
theorem audioProvided_spec_witness :
    (step initialState (Event.audioProvided "welcome.wav")).1.waitingForPlayStart = false :=
  (audioProvided_spec initialState "welcome.wav" rfl rfl).1

/-- Claim C4: invoking the caller-hangup handler from any prior state
reaches Terminated with the media endpoint destroyed, destroying it
exactly once when it was still live and not at all (a no-op) when it was
already destroyed. -/
theorem onCallerHangup_spec (s : SessionState) :
    (onCallerHangup s).1.dialogState = DialogState.Terminated ∧
    (onCallerHangup s).1.endpointDestroyed = true ∧
    (s.endpointDestroyed = false →
      (onCallerHangup s).2.count Action.destroyEndpoint = 1) ∧
    (s.endpointDestroyed = true →
      (onCallerHangup s).2.count Action.destroyEndpoint = 0) := by
  cases hd : s.endpointDestroyed <;>
    simp [onCallerHangup, destroyEndpointOp, hd, List.count_cons]

/-- Witness for C4 at a concrete state (mid-playback flags set, endpoint
live). -/
theorem onCallerHangup_spec_witness :
    (onCallerHangup { initialState with hangupAfterPlayDone := true }).1.dialogState
      = DialogState.Terminated :=
  (onCallerHangup_spec { initialState with hangupAfterPlayDone := true }).1

/-- Claim C6: an IntentRecognized event with endInteraction set flags
hangupAfterPlayDone and waitingForPlayStart and arms one one-shot timer;
when an armed timer fires on a live call, it terminates the call exactly
when waitingForPlayStart is still set, and is a pure no-op (beyond
consuming the timer) otherwise; an intent without endInteraction only
logs and changes nothing. -/
theorem intent_spec (s : SessionState) (h : s.endpointDestroyed = false) :
    step s (Event.intent true) =
      ({ s with hangupAfterPlayDone := true
                waitingForPlayStart := true
                pendingTimers := s.pendingTimers + 1 }, [Action.logIntent]) ∧
    step s (Event.intent false) = (s, [Action.logIntent]) ∧
    (∀ t : SessionState, t.pendingTimers ≠ 0 →
      (step t Event.timerFire).1.pendingTimers = t.pendingTimers - 1 ∧
      (t.dlgDestroyed = false →
        ((step t Event.timerFire).1.dlgDestroyed = true ↔ t.waitingForPlayStart = true)) ∧
      (t.waitingForPlayStart = false →
        step t Event.timerFire = ({ t with pendingTimers := t.pendingTimers - 1 }, []))) := by
  refine ⟨by simp [step, handleIntent, h], by simp [step, handleIntent, h], ?_⟩
  intro t ht
  cases hw : t.waitingForPlayStart <;> cases hd : t.dlgDestroyed <;>
    cases he : t.endpointDestroyed <;>
    simp [step, destroyCall, destroyEndpointOp, ht, hw, hd, he]

/-- Witness for C6 at a concrete live state. -/
theorem intent_spec_witness :
    step initialState (Event.intent false) = (initialState, [Action.logIntent]) :=
  (intent_spec initialState rfl).2.1

/-- Claim C7: a DialogError event delivered to a live session is logged
and nothing else happens: the state is unchanged (no termination) and no
command is issued. -/
theorem dialogError_spec (s : SessionState) (h : s.endpointDestroyed = false) :
    step s Event.dialogError = (s, [Action.logError]) := by
  simp [step, handleError, h]

/-- Witness for C7 at a concrete live state. -/
theorem dialogError_spec_witness :
    step initialState Event.dialogError = (initialState, [Action.logError]) :=
  dialogError_spec initialState rfl

/-- Claim C9: TranscriptionAvailable is logged precisely when isFinal is
set, EndOfUtterance is always logged, and neither event changes any state
or issues any command. -/
theorem logOnly_events_spec (s : SessionState) (h : s.endpointDestroyed = false) :
    (∀ b, step s (Event.transcription b)
      = (s, if b then [Action.logTranscription] else [])) ∧
    step s Event.endOfUtterance = (s, [Action.logEndOfUtterance]) := by
  constructor
  · intro b
    cases b <;> simp [step, handleTranscription, h]
  · simp [step, handleEndOfUtterance, h]

/-- Witness for C9 at a concrete live state. -/
theorem logOnly_events_spec_witness :
    step initialState Event.endOfUtterance = (initialState, [Action.logEndOfUtterance]) :=
  (logOnly_events_spec initialState rfl).2

/-- Claim C8: the session start issues a dialog-turn command with the
fixed parameters and the greeting marker, and every startTurn command
emitted by any event step carries the same fixed parameters without the
greeting marker — so the greeting appears on the very first turn only. -/
theorem startTurn_greeting_spec :
    (∀ s : SessionState, start s =
      ({ s with dialogState := DialogState.TurnInProgress },
       [Action.startTurn initialTurnCmd])) ∧
    initialTurnCmd =
      { agent := "rising-af044", language := "en-US", timeoutSecs := 20, greeting := true } ∧
    nextTurnCmd = { initialTurnCmd with greeting := false } ∧
    (∀ (s : SessionState) (e : Event) (c : StartTurnCmd),
      Action.startTurn c ∈ (step s e).2 → c = nextTurnCmd) := by
  refine ⟨fun s => rfl, rfl, rfl, ?_⟩
  intro s e c hc
  cases e <;>
    revert hc <;>
    simp [step, handleIntent, handleTranscription, handleAudio, handleEndOfUtterance,
      handleError, onCallerHangup, destroyCall, destroyEndpointOp] <;>
  split_ifs <;> simp_all

/-- Witness for C8: the final conjunct applied at a concrete state, event
and command. -/
theorem startTurn_greeting_spec_witness :
    Action.startTurn nextTurnCmd ∈ (step initialState (Event.audioProvided "a.wav")).2 →
      nextTurnCmd = nextTurnCmd :=
  startTurn_greeting_spec.2.2.2 initialState (Event.audioProvided "a.wav") nextTurnCmd

/-- Claim C10: once hangupAfterPlayDone is set, no step ever clears it
(over any further event trace), and any AudioProvided event processed
from such a state terminates the call instead of starting a new dialog
turn. -/
theorem hangup_flag_monotone_spec (s : SessionState) (h : s.hangupAfterPlayDone = true) :
    (∀ e, (step s e).1.hangupAfterPlayDone = true) ∧
    (∀ es : List Event, (run s es).1.hangupAfterPlayDone = true) ∧
    (∀ p, (∀ c, Action.startTurn c ∉ (step s (Event.audioProvided p)).2) ∧
      (s.endpointDestroyed = false → s.dlgDestroyed = false →
        (step s (Event.audioProvided p)).1.dlgDestroyed = true ∧
        (step s (Event.audioProvided p)).1.dialogState = DialogState.Terminated)) := by
  refine ⟨fun e => step_preserves_hangupAfterPlayDone s e h, ?_, ?_⟩
  · intro es
    induction es generalizing s with
    | nil => simpa [run] using h
    | cons e es ih =>
        simpa [run] using ih (step s e).1 (step_preserves_hangupAfterPlayDone s e h)
  · intro p
    constructor
    · intro c
      cases hd : s.endpointDestroyed
      · cases hg : s.dlgDestroyed <;>
          simp [step, handleAudio, destroyCall, destroyEndpointOp, h, hd, hg]
      · exact (step_no_commands_of_destroyed s (Event.audioProvided p) hd).1 c
    · intro hd hg
      simp [step, handleAudio, destroyCall, destroyEndpointOp, h, hd, hg]

/-- Witness for C10 at a concrete state with the flag set. -/
theorem hangup_flag_monotone_spec_witness :
    (step { initialState with hangupAfterPlayDone := true } Event.dialogError).1.hangupAfterPlayDone
      = true :=
  (hangup_flag_monotone_spec { initialState with hangupAfterPlayDone := true } rfl).1
    Event.dialogError

/-- Claim C2: an end-interaction intent followed, before the armed
fallback timer fires, by an AudioProvided event makes the session play
the clip and terminate the call from the playback-completion path; the
later timer fire performs nothing, so the endpoint is destroyed exactly
once. -/
theorem intent_then_audio_spec (s : SessionState) (p : String)
    (h1 : s.endpointDestroyed = false) (h2 : s.dlgDestroyed = false) :
    (run s [Event.intent true, Event.audioProvided p, Event.timerFire]).2
      = [Action.logIntent, Action.play p, Action.destroyDialog, Action.destroyEndpoint] ∧
    (run s [Event.intent true, Event.audioProvided p, Event.timerFire]).1.dialogState
      = DialogState.Terminated ∧
    (step (run s [Event.intent true, Event.audioProvided p]).1 Event.timerFire).2 = [] ∧
    (run s [Event.intent true, Event.audioProvided p, Event.timerFire]).2.count
      Action.destroyEndpoint = 1 := by
  have htr : (run s [Event.intent true, Event.audioProvided p, Event.timerFire]).2
      = [Action.logIntent, Action.play p, Action.destroyDialog, Action.destroyEndpoint] := by
    simp [run, step, handleIntent, handleAudio, destroyCall, destroyEndpointOp, h1, h2]
  refine ⟨htr, ?_, ?_, ?_⟩
  · simp [run, step, handleIntent, handleAudio, destroyCall, destroyEndpointOp, h1, h2]
  · simp [run, step, handleIntent, handleAudio, destroyCall, destroyEndpointOp, h1, h2]
  · rw [htr]
    rfl

/-- Witness for C2 at a concrete live state. -/
theorem intent_then_audio_spec_witness :
    (run initialState [Event.intent true, Event.audioProvided "bye.wav", Event.timerFire]).2.count
      Action.destroyEndpoint = 1 :=
  (intent_then_audio_spec initialState "bye.wav" rfl rfl).2.2.2

/-- Claim C3: an end-interaction intent with no AudioProvided before the
fallback timer fires makes the timer terminate the call, and the endpoint
is destroyed exactly once even when a caller hangup races in immediately
before or after the timer fire. -/
theorem intent_fallback_once_spec (s : SessionState)
    (h1 : s.endpointDestroyed = false) (h2 : s.dlgDestroyed = false) :
    ((run s [Event.intent true, Event.timerFire, Event.callerHangup]).1.dialogState
        = DialogState.Terminated ∧
      (run s [Event.intent true, Event.timerFire, Event.callerHangup]).2
        = [Action.logIntent, Action.destroyDialog, Action.destroyEndpoint] ∧
      (run s [Event.intent true, Event.timerFire, Event.callerHangup]).2.count
        Action.destroyEndpoint = 1) ∧
    ((run s [Event.intent true, Event.callerHangup, Event.timerFire]).1.dialogState
        = DialogState.Terminated ∧
      (run s [Event.intent true, Event.callerHangup, Event.timerFire]).2.count
        Action.destroyEndpoint = 1) := by
  have htr1 : (run s [Event.intent true, Event.timerFire, Event.callerHangup]).2
      = [Action.logIntent, Action.destroyDialog, Action.destroyEndpoint] := by
    simp [run, step, handleIntent, onCallerHangup, destroyCall, destroyEndpointOp, h1, h2]
  have htr2 : (run s [Event.intent true, Event.callerHangup, Event.timerFire]).2
      = [Action.logIntent, Action.logHangup, Action.destroyEndpoint] := by
    simp [run, step, handleIntent, onCallerHangup, destroyCall, destroyEndpointOp, h1, h2]
  refine ⟨⟨?_, htr1, ?_⟩, ?_, ?_⟩
  · simp [run, step, handleIntent, onCallerHangup, destroyCall, destroyEndpointOp, h1, h2]
  · rw [htr1]; rfl
  · simp [run, step, handleIntent, onCallerHangup, destroyCall, destroyEndpointOp, h1, h2]
  · rw [htr2]; rfl

/-- Witness for C3 at a concrete live state. -/
theorem intent_fallback_once_spec_witness :
    (run initialState [Event.intent true, Event.timerFire, Event.callerHangup]).2.count
      Action.destroyEndpoint = 1 :=
  (intent_fallback_once_spec initialState rfl rfl).1.2.2

/-- Claim C5: once the endpoint is destroyed (the session terminated), no
startTurn and no play command is ever issued again, over any trace of
stray events delivered afterward. -/
theorem no_commands_after_termination (s : SessionState) (h : s.endpointDestroyed = true) :
    ∀ es : List Event, (∀ c, Action.startTurn c ∉ (run s es).2) ∧
      (∀ p, Action.play p ∉ (run s es).2) := by
  intro es
  induction es generalizing s with
  | nil => simp [run]
  | cons e es ih =>
      have hstep := step_no_commands_of_destroyed s e h
      have hrest := ih (step s e).1 (step_preserves_endpointDestroyed s e h)
      constructor
      · intro c
        simp only [run, List.mem_append, not_or]
        exact ⟨hstep.1 c, hrest.1 c⟩
      · intro p
        simp only [run, List.mem_append, not_or]
        exact ⟨hstep.2 p, hrest.2 p⟩

/-- Witness for C5 at a concrete terminated state with stray events. -/
theorem no_commands_after_termination_witness :
    Action.startTurn nextTurnCmd ∉
      (run { initialState with endpointDestroyed := true }
        [Event.audioProvided "stray.wav", Event.intent true]).2 :=
  (no_commands_after_termination { initialState with endpointDestroyed := true } rfl
    [Event.audioProvided "stray.wav", Event.intent true]).1 nextTurnCmd

end DialogflowApp
